import Mathlib

/-!
Verification of the multi-agent trading pipeline (orchestrator agents).

The Python source is shallowly embedded over exact rationals: every float
becomes a `ℚ`, Python `round(x, n)` becomes `pyRound` (round half to even,
the Python tie-breaking rule), `None`-able floats become `Option ℚ`, and the
per-pair mutable dictionaries become explicit state records threaded through
pure update functions.  Wall-clock fields (`created_at`, `last_update`,
`hit_at`, `executed_at` timestamps) carry no control-flow weight; where the
code only tests their presence they are modelled as `Bool`, otherwise they
are omitted.  Interpolated numeric values inside human-readable reason
strings are dropped; the static text is kept.
-/

namespace MultiAgent

/-- Round half to even on `ℤ`-valued targets, the tie-breaking rule of
the Python builtin `round`. -/
def roundHalfEven (x : ℚ) : ℤ :=
  if x - ⌊x⌋ < 1/2 then ⌊x⌋
  else if 1/2 < x - ⌊x⌋ then ⌊x⌋ + 1
  else if 2 ∣ ⌊x⌋ then ⌊x⌋ else ⌊x⌋ + 1

/-- Python `str.lower()` restricted to ASCII, which covers every string the
embedded code compares. -/
def lowerChar (c : Char) : Char :=
  if 65 ≤ c.toNat ∧ c.toNat ≤ 90 then Char.ofNat (c.toNat + 32) else c

/-- Python `s.lower()`. -/
def pyLower (s : String) : String := ⟨s.data.map lowerChar⟩

/-- Python `round(x, n)` on exact rationals. -/
def pyRound (n : ℕ) (x : ℚ) : ℚ :=
  ((roundHalfEven (x * (10 : ℚ) ^ n) : ℤ) : ℚ) / (10 : ℚ) ^ n

/-- Python `a or d` where `a` is an `Optional[float]`: both `None` and `0.0`
are falsy and fall through to the default. -/
def pyOrFloat (a : Option ℚ) (d : ℚ) : ℚ :=
  match a with
  | none => d
  | some v => if v = 0 then d else v

/-! ## Trailing stop manager
`src/services/orchestrator/app/agents/position/trailing_stop.py`.
The manager keys state by trading pair in `active_stops`; every per-pair entry
evolves independently, so the embedding models a single per-pair entry. -/

/-- One entry of `TrailingStopManager.active_stops`. -/
structure TrailingStopState where
  pair : String
  entryPrice : ℚ
  action : String
  currentStop : ℚ
  highestPrice : Option ℚ
  lowestPrice : Option ℚ
  trailingDistancePct : ℚ
  activationPrice : ℚ
  activated : Bool
  updates : ℕ

/-- Result dictionary returned by `update_trailing_stop` when the stop moved. -/
structure TrailingUpdate where
  pair : String
  oldStop : ℚ
  newStop : ℚ
  currentPrice : ℚ
  updates : ℕ

/-- Embeds `TrailingStopManager.setup_trailing_stop`: the state stored into
`active_stops[pair]`.  The manager defaults are passed explicitly
(`trailing_distance_pct = 0.02`, `activation_profit_pct = 0.01` in
`__init__`); the per-call overrides are combined with them via Python `or`. -/
def setupTrailingStop (mgrTrailingDistancePct mgrActivationProfitPct : ℚ)
    (pair : String) (entryPrice : ℚ) (action : String) (initialStopLoss : ℚ)
    (trailingDistancePct activationProfitPct : Option ℚ) : TrailingStopState :=
  let trailingDist := pyOrFloat trailingDistancePct mgrTrailingDistancePct
  let activationProfit := pyOrFloat activationProfitPct mgrActivationProfitPct
  let activationPrice :=
    if action = "buy" then entryPrice * (1 + activationProfit)
    else entryPrice * (1 - activationProfit)
  { pair := pair
    entryPrice := entryPrice
    action := action
    currentStop := initialStopLoss
    highestPrice := if action = "buy" then some entryPrice else none
    lowestPrice := if action = "sell" then some entryPrice else none
    trailingDistancePct := trailingDist
    activationPrice := activationPrice
    activated := false
    updates := 0 }

/-- Activation phase of `update_trailing_stop`: flip `activated` when the
price crosses the activation price in the favorable direction. -/
def trailingActivate (s : TrailingStopState) (currentPrice : ℚ) : TrailingStopState :=
  if s.activated = false then
    if s.action = "buy" ∧ s.activationPrice ≤ currentPrice then { s with activated := true }
    else if s.action = "sell" ∧ currentPrice ≤ s.activationPrice then { s with activated := true }
    else s
  else s

/-- Body of the buy branch of `update_trailing_stop` once a new high is seen:
record the high, and move the stop (with `new_stop = price·(1 - distance)`)
only if the candidate is strictly higher than the current stop. -/
def trailingBuyUpdate (s : TrailingStopState) (currentPrice : ℚ) :
    TrailingStopState × Option TrailingUpdate :=
  if s.currentStop < currentPrice * (1 - s.trailingDistancePct) then
    ({ s with highestPrice := some currentPrice,
              currentStop := currentPrice * (1 - s.trailingDistancePct),
              updates := s.updates + 1 },
     some { pair := s.pair, oldStop := pyRound 2 s.currentStop,
            newStop := pyRound 2 (currentPrice * (1 - s.trailingDistancePct)),
            currentPrice := pyRound 2 currentPrice, updates := s.updates + 1 })
  else ({ s with highestPrice := some currentPrice }, none)

/-- Body of the sell branch of `update_trailing_stop` once a new low is seen:
record the low, and move the stop (with `new_stop = price·(1 + distance)`)
only if the candidate is strictly lower than the current stop. -/
def trailingSellUpdate (s : TrailingStopState) (currentPrice : ℚ) :
    TrailingStopState × Option TrailingUpdate :=
  if currentPrice * (1 + s.trailingDistancePct) < s.currentStop then
    ({ s with lowestPrice := some currentPrice,
              currentStop := currentPrice * (1 + s.trailingDistancePct),
              updates := s.updates + 1 },
     some { pair := s.pair, oldStop := pyRound 2 s.currentStop,
            newStop := pyRound 2 (currentPrice * (1 + s.trailingDistancePct)),
            currentPrice := pyRound 2 currentPrice, updates := s.updates + 1 })
  else ({ s with lowestPrice := some currentPrice }, none)

/-- Embeds `TrailingStopManager.update_trailing_stop` for one pair already present in
`active_stops`: the updated state together with the returned update dict
(`none` models Python returning `None`). -/
def updateTrailingStop (s0 : TrailingStopState) (currentPrice : ℚ) :
    TrailingStopState × Option TrailingUpdate :=
  let s := trailingActivate s0 currentPrice
  if s.activated = false then (s, none)
  else if s.action = "buy" then
    match s.highestPrice with
    | none => trailingBuyUpdate s currentPrice
    | some hp => if hp < currentPrice then trailingBuyUpdate s currentPrice else (s, none)
  else
    match s.lowestPrice with
    | none => trailingSellUpdate s currentPrice
    | some lp => if currentPrice < lp then trailingSellUpdate s currentPrice else (s, none)

/-- Fold a sequence of `update_trailing_stop` calls over a price stream. -/
def applyTrailingUpdates (s : TrailingStopState) (prices : List ℚ) : TrailingStopState :=
  prices.foldl (fun st p => (updateTrailingStop st p).1) s

/-! ## Take-profit manager
`src/services/orchestrator/app/agents/position/take_profit_manager.py`.
As with the trailing stop, `active_targets` is keyed by pair and each entry
evolves independently; the embedding models the target list of one pair. -/

/-- One element of the `take_profit_levels` argument (a level from RiskAgent). -/
structure TPLevelInput where
  price : ℚ
  allocation : ℚ

/-- One stored take-profit target.  `hitAt` and `executedAt` record the
presence of the corresponding wall-clock timestamps. -/
structure TPTarget where
  price : ℚ
  allocationPct : ℚ
  amount : ℚ
  hit : Bool
  hitAt : Bool
  executedAt : Bool
  orderId : Option String

/-- Embeds `TakeProfitManager.setup_take_profit_levels`: the list stored into
`active_targets[pair]`, or `none` when no levels were provided (the manager
then stores nothing and reports `enabled: false`). -/
def setupTakeProfitLevels (positionSize : ℚ) (takeProfitLevels : List TPLevelInput) :
    Option (List TPTarget) :=
  match takeProfitLevels with
  | [] => none
  | _ :: _ => some (takeProfitLevels.map fun level =>
    { price := level.price
      allocationPct := level.allocation
      amount := pyRound 6 (positionSize * (level.allocation / 100))
      hit := false
      hitAt := false
      executedAt := false
      orderId := none })

/-- Per-target body of the `check_take_profit_hits` loop: an already-hit
target is skipped; otherwise a buy target fires at `price ≤ current_price`,
a sell target at `current_price ≤ price`.  The boolean reports whether the
target was appended to the hit list. -/
def checkHitsOne (currentPrice : ℚ) (action : String) (t : TPTarget) : TPTarget × Bool :=
  if t.hit then (t, false)
  else if action = "buy" then
    if t.price ≤ currentPrice then ({ t with hit := true, hitAt := true }, true) else (t, false)
  else if action = "sell" then
    if currentPrice ≤ t.price then ({ t with hit := true, hitAt := true }, true) else (t, false)
  else (t, false)

/-- Embeds `TakeProfitManager.check_take_profit_hits`: the mutated target list and
the list of newly hit targets, in order. -/
def checkTakeProfitHits (targets : List TPTarget) (currentPrice : ℚ) (action : String) :
    List TPTarget × List TPTarget :=
  ((targets.map fun t => checkHitsOne currentPrice action t).map Prod.fst,
   (((targets.map fun t => checkHitsOne currentPrice action t).filter Prod.snd).map Prod.fst))

/-- Embeds `TakeProfitManager.mark_target_executed`: stamps the first stored target
whose price matches and which is already hit; reports whether one was found. -/
def markTargetExecuted (targets : List TPTarget) (price : ℚ) (orderId : String) :
    List TPTarget × Bool :=
  match targets with
  | [] => ([], false)
  | t :: rest =>
    if t.price = price ∧ t.hit = true then
      ({ t with executedAt := true, orderId := some orderId } :: rest, true)
    else
      ((t :: (markTargetExecuted rest price orderId).1), (markTargetExecuted rest price orderId).2)

/-- A state-mutating call on the stored targets of one pair after setup. -/
inductive TPOp where
  | check (currentPrice : ℚ) (action : String)
  | mark (price : ℚ) (orderId : String)

/-- Apply one call to the stored target list. -/
def applyTPOp (targets : List TPTarget) (op : TPOp) : List TPTarget :=
  match op with
  | .check p a => (checkTakeProfitHits targets p a).1
  | .mark p oid => (markTargetExecuted targets p oid).1

/-- Apply a sequence of calls to the stored target list. -/
def applyTPOps (targets : List TPTarget) (ops : List TPOp) : List TPTarget :=
  ops.foldl applyTPOp targets

/-- Sum of `allocation_pct` over the stored targets of a pair. -/
def allocSum (targets : List TPTarget) : ℚ :=
  (targets.map TPTarget.allocationPct).sum

/-! ## Signal fusion
`src/services/orchestrator/app/agents/signal/fusion.py`.  Python dicts are
modelled as association lists in insertion order (the iteration order of a
Python dict). -/

/-- One indicator signal as consumed by `SignalFusion` (the fields the fusion
methods read). -/
structure IndicatorSignal where
  action : String
  strength : ℚ
  reason : String
  deriving DecidableEq

/-- The fused decision returned by `weighted_average_fusion`. -/
structure FusedDecision where
  action : String
  confidence : ℚ
  score : ℚ
  reasoning : String
  method : String

/-- Python `dict.get(k, 0.0)` on an association list. -/
def weightsGet (weights : List (String × ℚ)) (k : String) : ℚ :=
  match weights.find? (fun kv => kv.1 == k) with
  | some kv => kv.2
  | none => 0

/-- Embeds `SignalFusion.normalize_weights`: scale to sum 1, except that an all-zero
total is returned unchanged. -/
def normalizeWeights (weights : List (String × ℚ)) : List (String × ℚ) :=
  if (weights.map Prod.snd).sum = 0 then weights
  else weights.map fun kv => (kv.1, kv.2 / (weights.map Prod.snd).sum)

/-- Embeds `SignalFusion.action_to_score`: +1 buy, -1 sell, 0 hold, 0 unknown. -/
def actionToScore (action : String) : ℚ :=
  if pyLower action = "buy" then 1
  else if pyLower action = "sell" then -1
  else if pyLower action = "hold" then 0
  else 0

/-- Embeds `SignalFusion.score_to_action` with its deadband threshold. -/
def scoreToAction (score threshold : ℚ) : String :=
  if threshold < score then "buy"
  else if score < -threshold then "sell"
  else "hold"

/-- The default weights installed by `SignalFusion.__init__` when none are
supplied. -/
def defaultFusionWeights : List (String × ℚ) :=
  [("ema", 1/4), ("rsi", 1/4), ("macd", 1/4), ("support_resistance", 1/4)]

/-- Weighted score total of `weighted_average_fusion`:
`Σ action_score · strength · weight`. -/
def fusionTotalScore (weights : List (String × ℚ))
    (signals : List (String × IndicatorSignal)) : ℚ :=
  (signals.map fun nm => actionToScore nm.2.action * nm.2.strength * weightsGet weights nm.1).sum

/-- Weighted strength total of `weighted_average_fusion`: `Σ strength · weight`. -/
def fusionTotalStrength (weights : List (String × ℚ))
    (signals : List (String × IndicatorSignal)) : ℚ :=
  (signals.map fun nm => nm.2.strength * weightsGet weights nm.1).sum

/-- Embeds `SignalFusion.weighted_average_fusion`, with the configured weights and
the signal dict passed explicitly. -/
def weightedAverageFusion (selfWeights : List (String × ℚ))
    (signals : List (String × IndicatorSignal)) : FusedDecision :=
  { action := scoreToAction (fusionTotalScore (normalizeWeights selfWeights) signals) (1/10)
    confidence := pyRound 3 (if signals = [] then 0
      else fusionTotalStrength (normalizeWeights selfWeights) signals / signals.length)
    score := pyRound 3 (fusionTotalScore (normalizeWeights selfWeights) signals)
    reasoning :=
      if (signals.filter fun nm => decide ((3 : ℚ)/10 < nm.2.strength)) = [] then "No clear signals"
      else String.intercalate " | "
        (((signals.filter fun nm => decide ((3 : ℚ)/10 < nm.2.strength))).map
          fun nm => nm.1 ++ ": " ++ nm.2.reason)
    method := "weighted_average" }

/-- Modelled from the spec: the confidence the spec asserts, "the weighted
average of the indicator strengths (weights normalized to sum to 1)" — the
weighted strength sum under the normalized weights. -/
def specWeightedAverageStrength (selfWeights : List (String × ℚ))
    (signals : List (String × IndicatorSignal)) : ℚ :=
  fusionTotalStrength (normalizeWeights selfWeights) signals

/-- A concrete two-indicator signal dict used to separate the code
confidence from the spec weighted-average description. -/
def demoSignals : List (String × IndicatorSignal) :=
  [("ema", { action := "buy", strength := 1, reason := "r1" }),
   ("rsi", { action := "buy", strength := 1, reason := "r2" })]

/-! ## Technical indicators
`src/services/orchestrator/app/agents/signal/indicators/ema.py` and
`rsi.py`.  `pandas.Series.ewm(span=s, adjust=False).mean()` is the recurrence
`y₀ = x₀`, `yₜ = (1-α)·yₜ₋₁ + α·xₜ` with `α = 2/(s+1)`.  A pandas `NaN`
(which arises only in the RSI ratio when both averages are zero) is modelled
as `none`; every comparison against a `NaN` is false, exactly as in
Python. -/

/-- The `ewm(adjust=False).mean()` recurrence, carrying the running value. -/
def ewmGo (alpha y : ℚ) : List ℚ → List ℚ
  | [] => [y]
  | x :: xs => y :: ewmGo alpha ((1 - alpha) * y + alpha * x) xs

/-- Embeds `series.ewm(alpha, adjust=False).mean()` as a list of running values. -/
def ewmAdjustFalse (alpha : ℚ) : List ℚ → List ℚ
  | [] => []
  | x :: xs => ewmGo alpha x xs

/-- Embeds `series.ewm(span=span, adjust=False).mean()`. -/
def ewmSpan (span : ℕ) (xs : List ℚ) : List ℚ :=
  ewmAdjustFalse (2 / ((span : ℚ) + 1)) xs

/-- Embeds `series.iloc[-1]` (only used on non-empty series). -/
def ilocLast (xs : List ℚ) : ℚ := xs.getLastD 0

/-- Embeds `series.iloc[-2]` (only used on series of length at least two). -/
def ilocPrev (xs : List ℚ) : ℚ := xs.getD (xs.length - 2) 0

/-- Embeds `series.iloc[-1]` on a series that may hold `NaN`. -/
def ilocLastO (xs : List (Option ℚ)) : Option ℚ := xs.getLastD none

/-- Embeds `series.iloc[-2]` on a series that may hold `NaN`. -/
def ilocPrevO (xs : List (Option ℚ)) : Option ℚ := xs.getD (xs.length - 2) none

/-- The signal dictionary produced by `EMAIndicator.generate_signal`. -/
structure EmaSignal where
  action : String
  strength : ℚ
  reason : String

/-- Embeds `EMAIndicator.generate_signal` over a close-price series; the indicator
periods are the constructor arguments (defaults 9/21/50). -/
def emaGenerateSignal (fastPeriod slowPeriod signalPeriod : ℕ) (closes : List ℚ) : EmaSignal :=
  if closes.length < max fastPeriod (max slowPeriod signalPeriod) then
    { action := "hold", strength := 0, reason := "Insufficient data for EMA calculation" }
  else
    let fastS := ewmSpan fastPeriod closes
    let slowS := ewmSpan slowPeriod closes
    let fastEma := ilocLast fastS
    let slowEma := ilocLast slowS
    let signalEma := ilocLast (ewmSpan signalPeriod closes)
    let closePrice := ilocLast closes
    let bullishCross := slowEma < fastEma ∧ ilocPrev fastS ≤ ilocPrev slowS
    let bearishCross := fastEma < slowEma ∧ ilocPrev slowS ≤ ilocPrev fastS
    let strength0 := min (|fastEma - slowEma| / closePrice * 100 / 1) 1
    let aboveSignal := signalEma < closePrice
    let belowSignal := closePrice < signalEma
    if bullishCross ∧ aboveSignal then
      { action := "buy", strength := pyRound 3 (min (strength0 * (12/10)) 1),
        reason := "Bullish EMA crossover with price above signal line" }
    else if bullishCross then
      { action := "buy", strength := pyRound 3 (strength0 * (7/10)),
        reason := "Bullish EMA crossover (weak - price below signal line)" }
    else if bearishCross ∧ belowSignal then
      { action := "sell", strength := pyRound 3 (min (strength0 * (12/10)) 1),
        reason := "Bearish EMA crossover with price below signal line" }
    else if bearishCross then
      { action := "sell", strength := pyRound 3 (strength0 * (7/10)),
        reason := "Bearish EMA crossover (weak - price above signal line)" }
    else if slowEma < fastEma ∧ aboveSignal then
      { action := "hold", strength := pyRound 3 (strength0 * (3/10)),
        reason := "Bullish trend continues" }
    else if fastEma < slowEma ∧ belowSignal then
      { action := "hold", strength := pyRound 3 (strength0 * (3/10)),
        reason := "Bearish trend continues" }
    else
      { action := "hold", strength := pyRound 3 strength0, reason := "No clear signal" }

/-- Embeds `series.diff()` without its leading `NaN`: consecutive differences. -/
def diffs : List ℚ → List ℚ
  | [] => []
  | [_] => []
  | a :: b :: rest => (b - a) :: diffs (b :: rest)

/-- The gain series `delta.where(delta > 0, 0)`: the leading `NaN` of
`diff()` compares false against 0 and is replaced by 0. -/
def gains (closes : List ℚ) : List ℚ :=
  match closes with
  | [] => []
  | _ :: _ => 0 :: (diffs closes).map fun d => if 0 < d then d else 0

/-- The loss series `-delta.where(delta < 0, 0)`. -/
def losses (closes : List ℚ) : List ℚ :=
  match closes with
  | [] => []
  | _ :: _ => 0 :: (diffs closes).map fun d => if d < 0 then -d else 0

/-- Running exponential average of gains, `gain.ewm(span=period, adjust=False).mean()`. -/
def avgGainSeries (period : ℕ) (closes : List ℚ) : List ℚ := ewmSpan period (gains closes)

/-- Running exponential average of losses. -/
def avgLossSeries (period : ℕ) (closes : List ℚ) : List ℚ := ewmSpan period (losses closes)

/-- The final average gain used by the RSI value at the last bar. -/
def avgGain (period : ℕ) (closes : List ℚ) : ℚ := (avgGainSeries period closes).getLastD 0

/-- The final average loss used by the RSI value at the last bar. -/
def avgLoss (period : ℕ) (closes : List ℚ) : ℚ := (avgLossSeries period closes).getLastD 0

/-- Embeds `100 - 100/(1 + avg_gain/avg_loss)` under float semantics: a zero average
loss gives `rs = inf` hence RSI 100, unless the average gain is also zero, in
which case `rs` and the RSI are `NaN`. -/
def rsiOfAvgs (g l : ℚ) : Option ℚ :=
  if l = 0 then (if g = 0 then none else some 100)
  else some (100 - 100 / (1 + g / l))

/-- The `rsi` column computed by `RSIIndicator.calculate`. -/
def rsiSeries (period : ℕ) (closes : List ℚ) : List (Option ℚ) :=
  List.zipWith rsiOfAvgs (avgGainSeries period closes) (avgLossSeries period closes)

/-- Python `x < b` when `x` may be `NaN`: false on `NaN`. -/
def nanLt (a : Option ℚ) (b : ℚ) : Bool :=
  match a with
  | none => false
  | some x => decide (x < b)

/-- Python `x > b` when `x` may be `NaN`: false on `NaN`. -/
def nanGt (a : Option ℚ) (b : ℚ) : Bool :=
  match a with
  | none => false
  | some x => decide (b < x)

/-- Python `x <= b` when `x` may be `NaN`: false on `NaN`. -/
def nanLe (a : Option ℚ) (b : ℚ) : Bool :=
  match a with
  | none => false
  | some x => decide (x ≤ b)

/-- Python `x >= b` when `x` may be `NaN`: false on `NaN`. -/
def nanGe (a : Option ℚ) (b : ℚ) : Bool :=
  match a with
  | none => false
  | some x => decide (b ≤ x)

/-- Python `lo <= x <= hi` when `x` may be `NaN`: false on `NaN`. -/
def nanBetween (lo : ℚ) (a : Option ℚ) (hi : ℚ) : Bool :=
  match a with
  | none => false
  | some x => decide (lo ≤ x ∧ x ≤ hi)

/-- The signal dictionary produced by `RSIIndicator.generate_signal`; a `NaN`
strength (possible when the whole window is flat) is `none`. -/
structure RsiSignal where
  action : String
  strength : Option ℚ
  reason : String

/-- Embeds `RSIIndicator.generate_signal`; thresholds are the constructor arguments
(defaults 70/30 and extremes 80/20). -/
def rsiGenerateSignal (period : ℕ)
    (overbought oversold extremeOverbought extremeOversold : ℚ)
    (closes : List ℚ) : RsiSignal :=
  if closes.length < period + 1 then
    { action := "hold", strength := some 0, reason := "Insufficient data for RSI calculation" }
  else
    let rsi := ilocLastO (rsiSeries period closes)
    let rsiPrev := ilocPrevO (rsiSeries period closes)
    let base : String × Option ℚ × String :=
      if nanLt rsi extremeOversold then
        ("buy", rsi.map (fun x => min ((oversold - x) / oversold) 1), "RSI extremely oversold")
      else if nanLt rsi oversold then
        ("buy", rsi.map (fun x => (oversold - x) / (oversold - extremeOversold)), "RSI oversold")
      else if nanGt rsi extremeOverbought then
        ("sell", rsi.map (fun x => min ((x - overbought) / (100 - overbought)) 1),
         "RSI extremely overbought")
      else if nanGt rsi overbought then
        ("sell", rsi.map (fun x => (x - overbought) / (extremeOverbought - overbought)),
         "RSI overbought")
      else if nanBetween 45 rsi 55 then
        ("hold", some 0, "RSI neutral")
      else if nanGt rsi 55 then
        ("hold", rsi.map (fun x => (x - 50) / 20 * (3/10)), "RSI slightly bullish")
      else
        ("hold", rsi.map (fun x => (50 - x) / 20 * (3/10)), "RSI slightly bearish")
    let withCross : String × Option ℚ × String :=
      if nanGt rsi oversold && nanLe rsiPrev oversold then
        ("buy", base.2.1.map (fun s => min (s * (13/10)) 1), "RSI crossing up from oversold")
      else if nanLt rsi overbought && nanGe rsiPrev overbought then
        ("sell", base.2.1.map (fun s => min (s * (13/10)) 1), "RSI crossing down from overbought")
      else base
    { action := withCross.1, strength := (withCross.2.1).map (pyRound 3),
      reason := withCross.2.2 }

/-! ## Risk checker
`src/services/orchestrator/app/agents/risk/risk_checker.py`.  Warning texts
keep the static message without the interpolated numbers. -/

/-- The limits configured in `RiskChecker.__init__`. -/
structure RiskCheckerCfg where
  maxPositionSize : ℚ
  maxPositionValuePct : ℚ
  maxOpenTrades : ℕ
  dailyLossLimitPct : ℚ
  maxExposurePct : ℚ
  maxCorrelatedExposurePct : ℚ

/-- The default limits of `RiskChecker.__init__`. -/
def defaultRiskCheckerCfg : RiskCheckerCfg :=
  { maxPositionSize := 1, maxPositionValuePct := 2/10, maxOpenTrades := 5,
    dailyLossLimitPct := 5/100, maxExposurePct := 5/10, maxCorrelatedExposurePct := 3/10 }

/-- Result of `RiskChecker.check_position_size`. -/
structure PositionSizeCheck where
  approved : Bool
  positionSize : ℚ
  positionValuePct : ℚ
  maxPositionValuePct : ℚ
  warnings : List String

/-- Embeds `RiskChecker.check_position_size`. -/
def checkPositionSize (cfg : RiskCheckerCfg)
    (positionSize positionValue accountBalance : ℚ) : PositionSizeCheck :=
  { approved := decide (positionSize ≤ cfg.maxPositionSize) &&
      decide (positionValue / accountBalance * 100 ≤ cfg.maxPositionValuePct * 100)
    positionSize := positionSize
    positionValuePct := pyRound 2 (positionValue / accountBalance * 100)
    maxPositionValuePct := pyRound 2 (cfg.maxPositionValuePct * 100)
    warnings :=
      (if cfg.maxPositionSize < positionSize then ["Position size exceeds maximum"] else []) ++
      (if cfg.maxPositionValuePct * 100 < positionValue / accountBalance * 100 then
        ["Position value exceeds maximum"] else []) }

/-- Result of `RiskChecker.check_open_trades`. -/
structure OpenTradesCheck where
  approved : Bool
  currentOpenTrades : ℕ
  maxOpenTrades : ℕ
  remainingSlots : ℕ
  warnings : List String

/-- Embeds `RiskChecker.check_open_trades`. -/
def checkOpenTrades (cfg : RiskCheckerCfg) (currentOpenTrades : ℕ) : OpenTradesCheck :=
  { approved := decide (currentOpenTrades < cfg.maxOpenTrades)
    currentOpenTrades := currentOpenTrades
    maxOpenTrades := cfg.maxOpenTrades
    remainingSlots := cfg.maxOpenTrades - currentOpenTrades
    warnings := if cfg.maxOpenTrades ≤ currentOpenTrades then ["Maximum open trades reached"] else [] }

/-- Result of `RiskChecker.check_daily_loss`; percentage fields are stored as
percentages (times 100), as in the returned dict. -/
structure DailyLossCheck where
  approved : Bool
  dailyPnl : ℚ
  dailyLossPct : ℚ
  dailyLossLimitPct : ℚ
  remainingLossAllowance : ℚ
  warnings : List String

/-- Fractional daily loss used by `check_daily_loss`: zero unless the PnL is
negative. -/
def dailyLossFraction (dailyPnl accountBalance : ℚ) : ℚ :=
  if dailyPnl < 0 then |dailyPnl / accountBalance| else 0

/-- Embeds `RiskChecker.check_daily_loss`. -/
def checkDailyLoss (cfg : RiskCheckerCfg) (dailyPnl accountBalance : ℚ) : DailyLossCheck :=
  { approved := decide (dailyLossFraction dailyPnl accountBalance < cfg.dailyLossLimitPct)
    dailyPnl := pyRound 2 dailyPnl
    dailyLossPct := pyRound 2 (dailyLossFraction dailyPnl accountBalance * 100)
    dailyLossLimitPct := pyRound 2 (cfg.dailyLossLimitPct * 100)
    remainingLossAllowance :=
      pyRound 2 ((cfg.dailyLossLimitPct - dailyLossFraction dailyPnl accountBalance) * accountBalance)
    warnings :=
      if cfg.dailyLossLimitPct ≤ dailyLossFraction dailyPnl accountBalance then
        ["Daily loss limit breached"]
      else if cfg.dailyLossLimitPct * (8/10) ≤ dailyLossFraction dailyPnl accountBalance then
        ["Approaching daily loss limit"]
      else [] }

/-- Result of `RiskChecker.check_total_exposure`. -/
structure TotalExposureCheck where
  approved : Bool
  currentExposure : ℚ
  newPositionValue : ℚ
  totalExposure : ℚ
  exposurePct : ℚ
  maxExposurePct : ℚ
  remainingCapacity : ℚ
  warnings : List String

/-- Embeds `RiskChecker.check_total_exposure`. -/
def checkTotalExposure (cfg : RiskCheckerCfg)
    (currentExposure newPositionValue accountBalance : ℚ) : TotalExposureCheck :=
  { approved :=
      decide ((currentExposure + newPositionValue) / accountBalance ≤ cfg.maxExposurePct)
    currentExposure := pyRound 2 currentExposure
    newPositionValue := pyRound 2 newPositionValue
    totalExposure := pyRound 2 (currentExposure + newPositionValue)
    exposurePct := pyRound 2 ((currentExposure + newPositionValue) / accountBalance * 100)
    maxExposurePct := pyRound 2 (cfg.maxExposurePct * 100)
    remainingCapacity :=
      pyRound 2 ((cfg.maxExposurePct - (currentExposure + newPositionValue) / accountBalance) *
        accountBalance)
    warnings :=
      if cfg.maxExposurePct < (currentExposure + newPositionValue) / accountBalance then
        ["Total exposure exceeds maximum"]
      else if cfg.maxExposurePct * (9/10) < (currentExposure + newPositionValue) / accountBalance then
        ["Approaching exposure limit"]
      else [] }

/-- The aggregate returned by `RiskChecker.validate_trade` (the per-check
dicts are recoverable from the check functions above). -/
structure TradeValidation where
  approved : Bool
  riskScore : ℚ
  warnings : List String

/-- The `risk_factors` list assembled by `validate_trade`: the position-size
ratio is appended only when the rounded position-value percentage is
positive; the other three ratios are always appended.  Every ratio divides
the rounded percentage fields of the check dicts. -/
def riskFactors (c1 : PositionSizeCheck) (c2 : OpenTradesCheck) (c3 : DailyLossCheck)
    (c4 : TotalExposureCheck) : List ℚ :=
  (if 0 < c1.positionValuePct then [c1.positionValuePct / c1.maxPositionValuePct] else []) ++
  [(c2.currentOpenTrades : ℚ) / (c2.maxOpenTrades : ℚ),
   c3.dailyLossPct / c3.dailyLossLimitPct,
   c4.exposurePct / c4.maxExposurePct]

/-- Embeds `RiskChecker.validate_trade`. -/
def validateTrade (cfg : RiskCheckerCfg) (positionSize positionValue accountBalance : ℚ)
    (currentOpenTrades : ℕ) (dailyPnl currentExposure : ℚ) : TradeValidation :=
  { approved := (checkPositionSize cfg positionSize positionValue accountBalance).approved &&
      (checkOpenTrades cfg currentOpenTrades).approved &&
      (checkDailyLoss cfg dailyPnl accountBalance).approved &&
      (checkTotalExposure cfg currentExposure positionValue accountBalance).approved
    riskScore := pyRound 3
      (if riskFactors (checkPositionSize cfg positionSize positionValue accountBalance)
          (checkOpenTrades cfg currentOpenTrades)
          (checkDailyLoss cfg dailyPnl accountBalance)
          (checkTotalExposure cfg currentExposure positionValue accountBalance) = [] then 0
       else
        (riskFactors (checkPositionSize cfg positionSize positionValue accountBalance)
          (checkOpenTrades cfg currentOpenTrades)
          (checkDailyLoss cfg dailyPnl accountBalance)
          (checkTotalExposure cfg currentExposure positionValue accountBalance)).sum /
        (riskFactors (checkPositionSize cfg positionSize positionValue accountBalance)
          (checkOpenTrades cfg currentOpenTrades)
          (checkDailyLoss cfg dailyPnl accountBalance)
          (checkTotalExposure cfg currentExposure positionValue accountBalance)).length)
    warnings := (checkPositionSize cfg positionSize positionValue accountBalance).warnings ++
      (checkOpenTrades cfg currentOpenTrades).warnings ++
      (checkDailyLoss cfg dailyPnl accountBalance).warnings ++
      (checkTotalExposure cfg currentExposure positionValue accountBalance).warnings }

/-- Modelled from the spec: the risk score the spec describes, "the unweighted
mean of each check utilization ratio (value/limit)" — the ratios of all four
checks, with no positivity filter. -/
def specRiskScore (cfg : RiskCheckerCfg) (positionValue accountBalance : ℚ)
    (currentOpenTrades : ℕ) (dailyPnl currentExposure : ℚ) : ℚ :=
  ((positionValue / accountBalance) / cfg.maxPositionValuePct +
    (currentOpenTrades : ℚ) / (cfg.maxOpenTrades : ℚ) +
    dailyLossFraction dailyPnl accountBalance / cfg.dailyLossLimitPct +
    ((currentExposure + positionValue) / accountBalance) / cfg.maxExposurePct) / 4

/-! ## Kelly criterion
`src/services/orchestrator/app/agents/risk/kelly_criterion.py`. -/

/-- The successful result dictionary of `KellyCriterion.calculate_kelly`. -/
structure KellyResult where
  fullKelly : ℚ
  safeKelly : ℚ
  winRate : ℚ
  lossRate : ℚ
  winLossR : ℚ
  recommendation : String
  fractionalKellyMultiplier : ℚ
  maxKellyFraction : ℚ

/-- Embeds `KellyCriterion.calculate_kelly`; the constructor parameters
(`default_win_rate = 0.5`, `default_win_loss_ratio = 2.0`,
`max_kelly_fraction = 0.25`, `fractional_kelly = 0.5`) are passed explicitly,
and the two error dictionaries become `Except.error`. -/
def calculateKelly (defaultWinRate defaultWinLossR maxKellyFraction fractionalKelly : ℚ)
    (winRate winLossR : Option ℚ) : Except String KellyResult :=
  if ¬(0 < winRate.getD defaultWinRate ∧ winRate.getD defaultWinRate < 1) then
    Except.error "Win rate must be between 0 and 1"
  else if winLossR.getD defaultWinLossR ≤ 0 then
    Except.error "Win/loss ratio must be positive"
  else
    let p := winRate.getD defaultWinRate
    let b := winLossR.getD defaultWinLossR
    let kellyFraction := (p * b - (1 - p)) / b
    Except.ok
      { fullKelly := pyRound 4 kellyFraction
        safeKelly := pyRound 4
          (if kellyFraction ≤ 0 then 0
           else if maxKellyFraction < kellyFraction then maxKellyFraction
           else kellyFraction * fractionalKelly)
        winRate := pyRound 3 p
        lossRate := pyRound 3 (1 - p)
        winLossR := pyRound 2 b
        recommendation :=
          if kellyFraction ≤ 0 then "no_trade"
          else if maxKellyFraction < kellyFraction then "max_kelly"
          else "fractional_kelly"
        fractionalKellyMultiplier := fractionalKelly
        maxKellyFraction := maxKellyFraction }

/-! ## Order executor
`src/services/orchestrator/app/agents/position/order_executor.py`.  The
external gateway is modelled as the outcome environment: the dry-run call is
one `Except` value, and `create_order` maps each attempt index to an
`Except` value (`error` models a raised exception).  Identifier and
timestamp fields carry no control flow and are omitted. -/

/-- The gateway dry-run response dictionary (the fields the executor reads). -/
structure DryRunResult where
  valid : Bool
  errors : List String
  warnings : List String

/-- The gateway `create_order` response (the fields the executor reads). -/
structure OrderResponse where
  orderId : Option String
  filledAmount : ℚ
  price : Option ℚ
  averagePrice : Option ℚ

/-- The execution result dictionary of `execute_order` (the fields that vary
between the rejected / executed / failed shapes). -/
structure ExecutionResult where
  success : Bool
  status : String
  reason : Option String
  orderId : Option String
  attempt : Option ℕ
  attempts : Option ℕ
  error : Option String

/-- Embeds `OrderExecutor._dry_run_validation`: a raised gateway exception is caught
and converted to an invalid response. -/
def dryRunValidation (dryRun : Except String DryRunResult) : DryRunResult :=
  match dryRun with
  | .ok r => r
  | .error e => { valid := false, errors := ["Dry-run request failed: " ++ e], warnings := [] }

/-- The retry loop `for attempt in range(max_retries)` of `execute_order`,
entered at `attempt`; falling off the loop (only possible when
`max_retries = 0`) is the implicit Python `None`. -/
def executeAttempts (createOrder : ℕ → Except String OrderResponse)
    (maxRetries attempt : ℕ) : Option ExecutionResult :=
  if _hlt : attempt < maxRetries then
    match createOrder attempt with
    | .ok r =>
      some { success := true, status := "executed", reason := none, orderId := r.orderId,
             attempt := some (attempt + 1), attempts := none, error := none }
    | .error e =>
      if attempt = maxRetries - 1 then
        some { success := false, status := "failed",
               reason := some ("Order execution failed after " ++ toString maxRetries ++
                 " attempts: " ++ e),
               orderId := none, attempt := none, attempts := some maxRetries, error := some e }
      else executeAttempts createOrder maxRetries (attempt + 1)
  else none
termination_by maxRetries - attempt
decreasing_by exact Nat.sub_lt_sub_left _hlt (Nat.lt_succ_self attempt)

/-- Embeds `OrderExecutor.execute_order` with the order parameters abstracted away
(they do not influence the control flow modelled here). -/
def executeOrder (enableDryRun : Bool) (maxRetries : ℕ)
    (dryRun : Except String DryRunResult)
    (createOrder : ℕ → Except String OrderResponse) : Option ExecutionResult :=
  if enableDryRun then
    if (dryRunValidation dryRun).valid = false then
      some { success := false, status := "rejected", reason := some "Dry-run validation failed",
             orderId := none, attempt := none, attempts := none, error := none }
    else executeAttempts createOrder maxRetries 0
  else executeAttempts createOrder maxRetries 0

/-- A gateway whose `create_order` raises on every attempt, used as the
concrete witness environment. -/
def demoFailingCreateOrder : ℕ → Except String OrderResponse :=
  fun i => Except.error ("gateway down " ++ toString i)

/-! ## Stop-loss / take-profit calculator
`src/services/orchestrator/app/agents/risk/stop_loss_calculator.py`. -/

/-- Result of `StopLossCalculator.atr_based_stop`. -/
structure AtrStopResult where
  method : String
  stopPrice : ℚ
  stopDistance : ℚ
  stopPct : ℚ
  atr : ℚ
  atrMultiplier : ℚ

/-- Embeds `StopLossCalculator.atr_based_stop`; the constructor default
`default_atr_multiplier = 2.0` is passed explicitly. -/
def atrBasedStop (defaultAtrMultiplier : ℚ) (entryPrice atr : ℚ) (action : String)
    (atrMultiplier : Option ℚ) : AtrStopResult :=
  { method := "atr"
    stopPrice := pyRound 2
      (if pyLower action = "buy" then entryPrice - atr * atrMultiplier.getD defaultAtrMultiplier
       else entryPrice + atr * atrMultiplier.getD defaultAtrMultiplier)
    stopDistance := pyRound 2 (atr * atrMultiplier.getD defaultAtrMultiplier)
    stopPct := pyRound 2 (atr * atrMultiplier.getD defaultAtrMultiplier / entryPrice * 100)
    atr := pyRound 2 atr
    atrMultiplier := atrMultiplier.getD defaultAtrMultiplier }

/-- One take-profit target of `calculate_take_profit`. -/
structure CalcTPTarget where
  level : ℕ
  price : ℚ
  distance : ℚ
  distancePct : ℚ
  allocation : ℚ

/-- Result of `StopLossCalculator.calculate_take_profit`. -/
structure TakeProfitCalc where
  riskRewardR : ℚ
  risk : ℚ
  totalReward : ℚ
  numTargets : ℕ
  targets : List CalcTPTarget

/-- Embeds `StopLossCalculator.calculate_take_profit`; constructor defaults
(`default_risk_reward = 2.0`, `min_risk_reward = 1.5`) are passed
explicitly.  The ratio is floored at the configured minimum; `risk` is the
absolute entry-to-stop distance. -/
def calculateTakeProfit (defaultRiskReward minRiskReward : ℚ)
    (entryPrice stopPrice : ℚ) (action : String)
    (riskRewardR : Option ℚ) (numTargets : ℕ) : TakeProfitCalc :=
  let rrRatio := max (riskRewardR.getD defaultRiskReward) minRiskReward
  let risk := |entryPrice - stopPrice|
  let reward := risk * rrRatio
  let targets : List CalcTPTarget :=
    if numTargets = 1 then
      [{ level := 1
         price := pyRound 2
           (if pyLower action = "buy" then entryPrice + reward else entryPrice - reward)
         distance := pyRound 2 reward
         distancePct := pyRound 2 (reward / entryPrice * 100)
         allocation := 100 }]
    else
      (List.range (min numTargets 3)).map fun i =>
        { level := i + 1
          price := pyRound 2
            (if pyLower action = "buy" then
              entryPrice + risk * ((i : ℚ) + 1) * rrRatio / (numTargets : ℚ) * ((i : ℚ) + 1)
             else entryPrice - risk * ((i : ℚ) + 1) * rrRatio / (numTargets : ℚ) * ((i : ℚ) + 1))
          distance := pyRound 2 (risk * ((i : ℚ) + 1) * rrRatio / (numTargets : ℚ) * ((i : ℚ) + 1))
          distancePct := pyRound 2
            (risk * ((i : ℚ) + 1) * rrRatio / (numTargets : ℚ) * ((i : ℚ) + 1) / entryPrice * 100)
          allocation := (if numTargets = 3 then [(50 : ℚ), 30, 20] else [60, 40]).getD i 0 }
  { riskRewardR := rrRatio
    risk := pyRound 2 risk
    totalReward := pyRound 2 reward
    numTargets := targets.length
    targets := targets }

/-! # Theorems -/

/-! ## Trailing-stop lemmas -/

theorem trailingActivate_action (s : TrailingStopState) (p : ℚ) :
    (trailingActivate s p).action = s.action := by
  unfold trailingActivate; split_ifs <;> rfl

theorem trailingActivate_currentStop (s : TrailingStopState) (p : ℚ) :
    (trailingActivate s p).currentStop = s.currentStop := by
  unfold trailingActivate; split_ifs <;> rfl

theorem trailingActivate_eq_of_not_activated (s : TrailingStopState) (p : ℚ)
    (h : (trailingActivate s p).activated = false) : trailingActivate s p = s := by
  unfold trailingActivate at h ⊢
  split_ifs at h ⊢ <;> simp_all

theorem trailingActivate_activated_mono (s : TrailingStopState) (p : ℚ)
    (h : s.activated = true) : (trailingActivate s p).activated = true := by
  unfold trailingActivate; split_ifs <;> simp_all

theorem trailingBuyUpdate_action (s : TrailingStopState) (p : ℚ) :
    ((trailingBuyUpdate s p).1).action = s.action := by
  unfold trailingBuyUpdate; split_ifs <;> rfl

theorem trailingBuyUpdate_activated (s : TrailingStopState) (p : ℚ) :
    ((trailingBuyUpdate s p).1).activated = s.activated := by
  unfold trailingBuyUpdate; split_ifs <;> rfl

theorem trailingBuyUpdate_stop_mono (s : TrailingStopState) (p : ℚ) :
    s.currentStop ≤ ((trailingBuyUpdate s p).1).currentStop := by
  unfold trailingBuyUpdate
  split_ifs with h
  · exact le_of_lt h
  · exact le_rfl

theorem trailingSellUpdate_action (s : TrailingStopState) (p : ℚ) :
    ((trailingSellUpdate s p).1).action = s.action := by
  unfold trailingSellUpdate; split_ifs <;> rfl

theorem trailingSellUpdate_activated (s : TrailingStopState) (p : ℚ) :
    ((trailingSellUpdate s p).1).activated = s.activated := by
  unfold trailingSellUpdate; split_ifs <;> rfl

theorem trailingSellUpdate_stop_anti (s : TrailingStopState) (p : ℚ) :
    ((trailingSellUpdate s p).1).currentStop ≤ s.currentStop := by
  unfold trailingSellUpdate
  split_ifs with h
  · exact le_of_lt h
  · exact le_rfl

theorem updateTrailingStop_cases (s : TrailingStopState) (p : ℚ) :
    (updateTrailingStop s p).1 = trailingActivate s p ∨
    ((updateTrailingStop s p).1 = (trailingBuyUpdate (trailingActivate s p) p).1 ∧
      (trailingActivate s p).action = "buy" ∧ (trailingActivate s p).activated = true) ∨
    ((updateTrailingStop s p).1 = (trailingSellUpdate (trailingActivate s p) p).1 ∧
      ¬(trailingActivate s p).action = "buy" ∧ (trailingActivate s p).activated = true) := by
  simp only [updateTrailingStop]
  by_cases hb : (trailingActivate s p).activated = false
  · rw [if_pos hb]; left; rfl
  · rw [if_neg hb]
    have hb2 : (trailingActivate s p).activated = true := by
      rcases h2 : (trailingActivate s p).activated
      · exact absurd h2 hb
      · rfl
    by_cases hc : (trailingActivate s p).action = "buy"
    · rw [if_pos hc]
      rcases hh : (trailingActivate s p).highestPrice with _ | hp
      · right; left; exact ⟨rfl, hc, hb2⟩
      · dsimp only
        by_cases hlt : hp < p
        · rw [if_pos hlt]; right; left; exact ⟨rfl, hc, hb2⟩
        · rw [if_neg hlt]; left; rfl
    · rw [if_neg hc]
      rcases hl : (trailingActivate s p).lowestPrice with _ | lp
      · right; right; exact ⟨rfl, hc, hb2⟩
      · dsimp only
        by_cases hlt : p < lp
        · rw [if_pos hlt]; right; right; exact ⟨rfl, hc, hb2⟩
        · rw [if_neg hlt]; left; rfl

theorem updateTrailingStop_action (s : TrailingStopState) (p : ℚ) :
    ((updateTrailingStop s p).1).action = s.action := by
  rcases updateTrailingStop_cases s p with h | ⟨h, -, -⟩ | ⟨h, -, -⟩ <;> rw [h]
  · exact trailingActivate_action s p
  · rw [trailingBuyUpdate_action]; exact trailingActivate_action s p
  · rw [trailingSellUpdate_action]; exact trailingActivate_action s p

theorem updateTrailingStop_activated_mono (s : TrailingStopState) (p : ℚ)
    (h : s.activated = true) : ((updateTrailingStop s p).1).activated = true := by
  rcases updateTrailingStop_cases s p with hc | ⟨hc, -, ha⟩ | ⟨hc, -, ha⟩ <;> rw [hc]
  · exact trailingActivate_activated_mono s p h
  · rw [trailingBuyUpdate_activated]; exact ha
  · rw [trailingSellUpdate_activated]; exact ha

theorem updateTrailingStop_eq_of_not_activated (s : TrailingStopState) (p : ℚ)
    (h : ((updateTrailingStop s p).1).activated = false) : (updateTrailingStop s p).1 = s := by
  rcases updateTrailingStop_cases s p with hc | ⟨hc, -, ha⟩ | ⟨hc, -, ha⟩
  · rw [hc] at h ⊢; exact trailingActivate_eq_of_not_activated s p h
  · rw [hc, trailingBuyUpdate_activated, ha] at h; cases h
  · rw [hc, trailingSellUpdate_activated, ha] at h; cases h

theorem updateTrailingStop_stop_mono_buy (s : TrailingStopState) (p : ℚ)
    (h : s.action = "buy") : s.currentStop ≤ ((updateTrailingStop s p).1).currentStop := by
  rcases updateTrailingStop_cases s p with hc | ⟨hc, -, -⟩ | ⟨hc, hnb, -⟩
  · rw [hc, trailingActivate_currentStop]
  · rw [hc]
    calc s.currentStop = (trailingActivate s p).currentStop :=
          (trailingActivate_currentStop s p).symm
      _ ≤ _ := trailingBuyUpdate_stop_mono (trailingActivate s p) p
  · exact absurd (by rw [trailingActivate_action]; exact h) hnb

theorem updateTrailingStop_stop_anti_other (s : TrailingStopState) (p : ℚ)
    (h : ¬s.action = "buy") : ((updateTrailingStop s p).1).currentStop ≤ s.currentStop := by
  rcases updateTrailingStop_cases s p with hc | ⟨hc, hby, -⟩ | ⟨hc, -, -⟩
  · rw [hc, trailingActivate_currentStop]
  · exact absurd (by rw [trailingActivate_action] at hby; exact hby) h
  · rw [hc]
    calc ((trailingSellUpdate (trailingActivate s p) p).1).currentStop
        ≤ (trailingActivate s p).currentStop :=
          trailingSellUpdate_stop_anti (trailingActivate s p) p
      _ = s.currentStop := trailingActivate_currentStop s p

theorem applyTrailingUpdates_append (s : TrailingStopState) (a b : List ℚ) :
    applyTrailingUpdates s (a ++ b) = applyTrailingUpdates (applyTrailingUpdates s a) b := by
  simp only [applyTrailingUpdates, List.foldl_append]

theorem applyTrailingUpdates_cons (s : TrailingStopState) (p : ℚ) (rest : List ℚ) :
    applyTrailingUpdates s (p :: rest) = applyTrailingUpdates ((updateTrailingStop s p).1) rest :=
  rfl

theorem applyTrailingUpdates_action (s : TrailingStopState) (ps : List ℚ) :
    (applyTrailingUpdates s ps).action = s.action := by
  induction ps generalizing s with
  | nil => rfl
  | cons p rest ih =>
    rw [applyTrailingUpdates_cons, ih, updateTrailingStop_action]

theorem applyTrailingUpdates_stop_mono_buy (s : TrailingStopState) (ps : List ℚ)
    (h : s.action = "buy") : s.currentStop ≤ (applyTrailingUpdates s ps).currentStop := by
  induction ps generalizing s with
  | nil => exact le_rfl
  | cons p rest ih =>
    rw [applyTrailingUpdates_cons]
    exact le_trans (updateTrailingStop_stop_mono_buy s p h)
      (ih _ (by rw [updateTrailingStop_action]; exact h))

theorem applyTrailingUpdates_stop_anti_other (s : TrailingStopState) (ps : List ℚ)
    (h : ¬s.action = "buy") : (applyTrailingUpdates s ps).currentStop ≤ s.currentStop := by
  induction ps generalizing s with
  | nil => exact le_rfl
  | cons p rest ih =>
    rw [applyTrailingUpdates_cons]
    exact le_trans (ih _ (by rw [updateTrailingStop_action]; exact h))
      (updateTrailingStop_stop_anti_other s p h)

theorem applyTrailingUpdates_activated_mono (s : TrailingStopState) (ps : List ℚ)
    (h : s.activated = true) : (applyTrailingUpdates s ps).activated = true := by
  induction ps generalizing s with
  | nil => exact h
  | cons p rest ih =>
    rw [applyTrailingUpdates_cons]
    exact ih _ (updateTrailingStop_activated_mono s p h)

theorem applyTrailingUpdates_stop_of_not_activated (s : TrailingStopState) (ps : List ℚ)
    (h : (applyTrailingUpdates s ps).activated = false) :
    (applyTrailingUpdates s ps).currentStop = s.currentStop := by
  induction ps generalizing s with
  | nil => rfl
  | cons p rest ih =>
    rw [applyTrailingUpdates_cons] at h ⊢
    have hstep : ((updateTrailingStop s p).1).activated = false := by
      by_contra hc
      have htrue : ((updateTrailingStop s p).1).activated = true := by
        rcases hx : ((updateTrailingStop s p).1).activated
        · exact absurd hx hc
        · rfl
      have hmono := applyTrailingUpdates_activated_mono (updateTrailingStop s p).1 rest htrue
      rw [hmono] at h
      cases h
    have hs : (updateTrailingStop s p).1 = s := updateTrailingStop_eq_of_not_activated s p hstep
    rw [hs] at h ⊢
    exact ih s h

/-- C1: for a trailing stop installed by `setup_trailing_stop` and any
sequence of `update_trailing_stop` calls, the stored `current_stop` never
decreases for a buy position and never increases for a sell position
(comparing the state after any earlier prefix of the price stream with the
state after any later prefix), and while `activated` is still false the
stored `current_stop` equals the `initial_stop_loss` given at setup. -/
theorem trailing_stop_tighten_only
    (mgrD mgrA : ℚ) (pair : String) (entry : ℚ) (action : String) (initStop : ℚ)
    (dOv aOv : Option ℚ) (prices : List ℚ) (k l : ℕ) (hkl : k ≤ l) :
    (action = "buy" →
      (applyTrailingUpdates (setupTrailingStop mgrD mgrA pair entry action initStop dOv aOv)
        (prices.take k)).currentStop ≤
      (applyTrailingUpdates (setupTrailingStop mgrD mgrA pair entry action initStop dOv aOv)
        (prices.take l)).currentStop) ∧
    (action = "sell" →
      (applyTrailingUpdates (setupTrailingStop mgrD mgrA pair entry action initStop dOv aOv)
        (prices.take l)).currentStop ≤
      (applyTrailingUpdates (setupTrailingStop mgrD mgrA pair entry action initStop dOv aOv)
        (prices.take k)).currentStop) ∧
    ((applyTrailingUpdates (setupTrailingStop mgrD mgrA pair entry action initStop dOv aOv)
        (prices.take l)).activated = false →
      (applyTrailingUpdates (setupTrailingStop mgrD mgrA pair entry action initStop dOv aOv)
        (prices.take l)).currentStop = initStop) := by
  have hsplit : prices.take l =
      prices.take k ++ (prices.take l).drop k := by
    conv_lhs => rw [← List.take_append_drop k (prices.take l)]
    rw [List.take_take, min_eq_left hkl]
  have happ : applyTrailingUpdates (setupTrailingStop mgrD mgrA pair entry action initStop dOv aOv)
      (prices.take l) =
      applyTrailingUpdates
        (applyTrailingUpdates (setupTrailingStop mgrD mgrA pair entry action initStop dOv aOv)
          (prices.take k)) ((prices.take l).drop k) := by
    rw [← applyTrailingUpdates_append, ← hsplit]
  have hact : (applyTrailingUpdates (setupTrailingStop mgrD mgrA pair entry action initStop dOv aOv)
      (prices.take k)).action = action :=
    applyTrailingUpdates_action _ _
  refine ⟨?_, ?_, ?_⟩
  · intro hb
    rw [happ]
    exact applyTrailingUpdates_stop_mono_buy _ _ (by rw [hact]; exact hb)
  · intro hs
    rw [happ]
    exact applyTrailingUpdates_stop_anti_other _ _ (by rw [hact, hs]; decide)
  · intro hna
    exact applyTrailingUpdates_stop_of_not_activated _ _ hna

/-- Witness for C1 at a concrete buy position and price stream. -/
theorem trailing_stop_tighten_only_witness :
    (applyTrailingUpdates (setupTrailingStop (2/100) (1/100) "BTC/USDT" 100 "buy" 95 none none)
      ([101, 102, 98].take 1)).currentStop ≤
    (applyTrailingUpdates (setupTrailingStop (2/100) (1/100) "BTC/USDT" 100 "buy" 95 none none)
      ([101, 102, 98].take 3)).currentStop :=
  (trailing_stop_tighten_only (2/100) (1/100) "BTC/USDT" 100 "buy" 95 none none
    [101, 102, 98] 1 3 (by norm_num)).1 rfl

/-- C10: passing an explicit `0.0` override for the trailing distance or the
activation profit to `setup_trailing_stop` does not install a zero value:
Python `or` treats `0.0` as falsy, so the manager defaults (2% distance, 1%
activation profit, hence activation price `entry · 1.01` for a buy) are
silently used, exactly as when passing `None`. -/
theorem setup_trailing_stop_zero_override_uses_defaults :
    (setupTrailingStop (2/100) (1/100) "BTC/USDT" 100 "buy" 95
      (some 0) (some 0)).trailingDistancePct = 2/100 ∧
    (setupTrailingStop (2/100) (1/100) "BTC/USDT" 100 "buy" 95
      (some 0) (some 0)).activationPrice = 101 ∧
    setupTrailingStop (2/100) (1/100) "BTC/USDT" 100 "buy" 95 (some 0) (some 0) =
      setupTrailingStop (2/100) (1/100) "BTC/USDT" 100 "buy" 95 none none := by
  refine ⟨?_, ?_, ?_⟩ <;> norm_num [setupTrailingStop, pyOrFloat]

/-! ## Take-profit allocation lemmas -/

theorem allocSum_cons (t : TPTarget) (ts : List TPTarget) :
    allocSum (t :: ts) = t.allocationPct + allocSum ts := by
  simp [allocSum]

theorem checkHitsOne_allocationPct (p : ℚ) (a : String) (t : TPTarget) :
    ((checkHitsOne p a t).1).allocationPct = t.allocationPct := by
  unfold checkHitsOne; split_ifs <;> rfl

theorem allocSum_check (ts : List TPTarget) (p : ℚ) (a : String) :
    allocSum (checkTakeProfitHits ts p a).1 = allocSum ts := by
  induction ts with
  | nil => rfl
  | cons t rest ih =>
    have hcons : (checkTakeProfitHits (t :: rest) p a).1 =
        (checkHitsOne p a t).1 :: (checkTakeProfitHits rest p a).1 := rfl
    rw [hcons, allocSum_cons, allocSum_cons, ih, checkHitsOne_allocationPct]

theorem allocSum_mark (ts : List TPTarget) (p : ℚ) (oid : String) :
    allocSum (markTargetExecuted ts p oid).1 = allocSum ts := by
  induction ts with
  | nil => rfl
  | cons t rest ih =>
    have hstep : markTargetExecuted (t :: rest) p oid =
        if t.price = p ∧ t.hit = true then
          ({ t with executedAt := true, orderId := some oid } :: rest, true)
        else (t :: (markTargetExecuted rest p oid).1, (markTargetExecuted rest p oid).2) := rfl
    by_cases h : t.price = p ∧ t.hit = true
    · rw [hstep, if_pos h, allocSum_cons, allocSum_cons]
    · rw [hstep, if_neg h, allocSum_cons, allocSum_cons, ih]

theorem allocSum_applyTPOps (ts : List TPTarget) (ops : List TPOp) :
    allocSum (applyTPOps ts ops) = allocSum ts := by
  induction ops generalizing ts with
  | nil => rfl
  | cons op rest ih =>
    have hcons : applyTPOps ts (op :: rest) = applyTPOps (applyTPOp ts op) rest := rfl
    rw [hcons, ih]
    cases op with
    | check p a => exact allocSum_check ts p a
    | mark p oid => exact allocSum_mark ts p oid

theorem allocSum_map_levels (positionSize : ℚ) (levels : List TPLevelInput) :
    allocSum (levels.map fun level =>
      ({ price := level.price, allocationPct := level.allocation,
         amount := pyRound 6 (positionSize * (level.allocation / 100)),
         hit := false, hitAt := false, executedAt := false, orderId := none } : TPTarget)) =
    (levels.map TPLevelInput.allocation).sum := by
  induction levels with
  | nil => rfl
  | cons x rest ih =>
    rw [List.map_cons, allocSum_cons, List.map_cons, List.sum_cons, ih]

theorem allocSum_setup (positionSize : ℚ) (levels : List TPLevelInput) (ts : List TPTarget)
    (h : setupTakeProfitLevels positionSize levels = some ts) :
    allocSum ts = (levels.map TPLevelInput.allocation).sum := by
  cases levels with
  | nil => cases h
  | cons x rest =>
    obtain rfl := Option.some_injective _ h
    exact allocSum_map_levels positionSize (x :: rest)

/-- C2 counterexample: `setup_take_profit_levels` stores the supplied
allocations unvalidated, so a non-empty level list whose allocations sum to
120 yields stored targets whose `allocation_pct` sum is 120 > 100, refuting
the claim for arbitrary input lists. -/
theorem take_profit_allocation_sum_counterexample :
    setupTakeProfitLevels 1
      [{ price := 100, allocation := 60 }, { price := 200, allocation := 60 }] =
      some [{ price := 100, allocationPct := 60, amount := 3/5, hit := false, hitAt := false,
              executedAt := false, orderId := none },
            { price := 200, allocationPct := 60, amount := 3/5, hit := false, hitAt := false,
              executedAt := false, orderId := none }] ∧
    allocSum [{ price := 100, allocationPct := 60, amount := 3/5, hit := false, hitAt := false,
                executedAt := false, orderId := none },
              { price := 200, allocationPct := 60, amount := 3/5, hit := false, hitAt := false,
                executedAt := false, orderId := none }] = 120 ∧
    ¬ ((120 : ℚ) ≤ 100) := by
  refine ⟨?_, ?_, by norm_num⟩
  · norm_num [setupTakeProfitLevels, pyRound, roundHalfEven]
  · norm_num [allocSum]

/-- C2 amended: when the supplied take-profit levels have allocations summing
to at most 100 (as the level sets from the RiskAgent do), the stored
`allocation_pct` sum is at most 100 after setup and stays so across any
sequence of `check_take_profit_hits` and `mark_target_executed` calls, since
no call changes any stored `allocation_pct`. -/
theorem take_profit_allocation_sum_invariant (positionSize : ℚ) (levels : List TPLevelInput)
    (ts : List TPTarget) (ops : List TPOp)
    (hsum : (levels.map TPLevelInput.allocation).sum ≤ 100)
    (hsetup : setupTakeProfitLevels positionSize levels = some ts) :
    allocSum (applyTPOps ts ops) ≤ 100 := by
  rw [allocSum_applyTPOps, allocSum_setup positionSize levels ts hsetup]
  exact hsum

/-- Witness for the amended C2 at a concrete 60/40 ladder with one price
check and one execution mark. -/
theorem take_profit_allocation_sum_invariant_witness :
    allocSum (applyTPOps
      [{ price := 100, allocationPct := 60, amount := 3/5, hit := false, hitAt := false,
         executedAt := false, orderId := none },
       { price := 200, allocationPct := 40, amount := 2/5, hit := false, hitAt := false,
         executedAt := false, orderId := none }]
      [TPOp.check 150 "buy", TPOp.mark 100 "oid-1"]) ≤ 100 :=
  take_profit_allocation_sum_invariant 1
    [{ price := 100, allocation := 60 }, { price := 200, allocation := 40 }] _ _
    (by norm_num)
    (by norm_num [setupTakeProfitLevels, pyRound, roundHalfEven])

/-! ## Fusion lemmas -/

theorem pyLower_buy : pyLower "buy" = "buy" := by decide

theorem actionToScore_buy : actionToScore "buy" = 1 := by
  unfold actionToScore
  rw [pyLower_buy, if_pos rfl]

theorem ema_beq_ema : (("ema" : String) == "ema") = true := by decide

theorem ema_beq_rsi : (("ema" : String) == "rsi") = false := by decide

theorem rsi_beq_rsi : (("rsi" : String) == "rsi") = true := by decide

theorem weightsGet_cons (k k2 : String) (v : ℚ) (rest : List (String × ℚ)) :
    weightsGet ((k2, v) :: rest) k = if (k2 == k) = true then v else weightsGet rest k := by
  unfold weightsGet
  cases h : (k2 == k) <;> simp [List.find?, h]

/-- C3 counterexample: for two unit-strength buy signals under the default
weights, the code confidence is `(Σ wᵢ·sᵢ)/n = 0.25`, while the weighted
average of the strengths under the normalized weights is `0.5`, refuting the
claimed confidence formula. -/
theorem weighted_average_confidence_counterexample :
    (weightedAverageFusion defaultFusionWeights demoSignals).confidence = 1/4 ∧
    specWeightedAverageStrength defaultFusionWeights demoSignals = 1/2 ∧
    ¬ ((1 : ℚ)/4 = 1/2) := by
  refine ⟨?_, ?_, by norm_num⟩
  · unfold weightedAverageFusion demoSignals
    rw [if_neg (List.cons_ne_nil _ _)]
    norm_num [fusionTotalStrength, normalizeWeights, defaultFusionWeights,
      weightsGet_cons, ema_beq_ema, ema_beq_rsi, rsi_beq_rsi, pyRound, roundHalfEven]
  · norm_num [specWeightedAverageStrength, fusionTotalStrength, normalizeWeights,
      defaultFusionWeights, demoSignals, weightsGet_cons, ema_beq_ema, ema_beq_rsi, rsi_beq_rsi]

/-- C3 amended: for a non-empty signal dict, `weighted_average_fusion`
chooses buy when the weighted score total exceeds 0.1, sell below -0.1,
hold otherwise, and its confidence is the weighted strength sum divided by
the number of signals (not the weighted average of the strengths), rounded
to three decimals. -/
theorem weighted_average_fusion_correct (ws : List (String × ℚ))
    (signals : List (String × IndicatorSignal)) (h : signals ≠ []) :
    (weightedAverageFusion ws signals).action =
      (if (1 : ℚ)/10 < fusionTotalScore (normalizeWeights ws) signals then "buy"
       else if fusionTotalScore (normalizeWeights ws) signals < -(1/10) then "sell"
       else "hold") ∧
    (weightedAverageFusion ws signals).confidence =
      pyRound 3 (fusionTotalStrength (normalizeWeights ws) signals / signals.length) := by
  constructor
  · rfl
  · simp only [weightedAverageFusion]
    rw [if_neg h]

/-- Witness for the amended C3 at the concrete two-signal input. -/
theorem weighted_average_fusion_correct_witness :
    (weightedAverageFusion defaultFusionWeights demoSignals).action = "buy" ∧
    (weightedAverageFusion defaultFusionWeights demoSignals).confidence = 1/4 := by
  have h := weighted_average_fusion_correct defaultFusionWeights demoSignals (by decide)
  constructor
  · rw [h.1]
    rw [if_pos (by norm_num [fusionTotalScore, normalizeWeights, defaultFusionWeights,
      demoSignals, weightsGet_cons, ema_beq_ema, ema_beq_rsi, rsi_beq_rsi, actionToScore_buy])]
  · rw [h.2]
    norm_num [fusionTotalStrength, normalizeWeights, defaultFusionWeights, demoSignals,
      weightsGet_cons, ema_beq_ema, ema_beq_rsi, rsi_beq_rsi, List.length,
      pyRound, roundHalfEven]

/-! ## Indicator lemmas -/

/-- C4: a series shorter than the minimum required length of the indicator — for
EMA `max(fast, slow, signal)` periods, for RSI `period + 1` bars — makes
`generate_signal` return the insufficient-data hold signal with strength 0,
on the guard branch that never touches the series, hence never raises. -/
theorem insufficient_data_returns_hold
    (fastPeriod slowPeriod signalPeriod period : ℕ)
    (overbought oversold extremeOverbought extremeOversold : ℚ)
    (emaCloses rsiCloses : List ℚ)
    (h1 : emaCloses.length < max fastPeriod (max slowPeriod signalPeriod))
    (h2 : rsiCloses.length < period + 1) :
    emaGenerateSignal fastPeriod slowPeriod signalPeriod emaCloses =
      { action := "hold", strength := 0, reason := "Insufficient data for EMA calculation" } ∧
    rsiGenerateSignal period overbought oversold extremeOverbought extremeOversold rsiCloses =
      { action := "hold", strength := some 0,
        reason := "Insufficient data for RSI calculation" } := by
  constructor
  · unfold emaGenerateSignal; rw [if_pos h1]
  · unfold rsiGenerateSignal; rw [if_pos h2]

/-- Witness for C4 on a two-bar series with the default periods. -/
theorem insufficient_data_returns_hold_witness :
    (emaGenerateSignal 9 21 50 [1, 2]).action = "hold" ∧
    (emaGenerateSignal 9 21 50 [1, 2]).strength = 0 ∧
    (rsiGenerateSignal 14 70 30 80 20 [1, 2]).action = "hold" ∧
    (rsiGenerateSignal 14 70 30 80 20 [1, 2]).strength = some 0 := by
  have h := insufficient_data_returns_hold 9 21 50 14 70 30 80 20 [1, 2] [1, 2]
    (by norm_num) (by norm_num)
  refine ⟨?_, ?_, ?_, ?_⟩
  · rw [h.1]
  · rw [h.1]
  · rw [h.2]
  · rw [h.2]

theorem ewmGo_length (alpha y : ℚ) (xs : List ℚ) :
    (ewmGo alpha y xs).length = xs.length + 1 := by
  induction xs generalizing y with
  | nil => rfl
  | cons x rest ih => rw [ewmGo, List.length_cons, ih, List.length_cons]

theorem ewmAdjustFalse_length (alpha : ℚ) (xs : List ℚ) :
    (ewmAdjustFalse alpha xs).length = xs.length := by
  cases xs with
  | nil => rfl
  | cons x rest => rw [ewmAdjustFalse, ewmGo_length, List.length_cons]

theorem diffs_length : ∀ (xs : List ℚ), (diffs xs).length = xs.length - 1
  | [] => rfl
  | [_] => rfl
  | a :: b :: rest => by
    have ih := diffs_length (b :: rest)
    simp only [diffs, List.length_cons] at ih ⊢
    omega

theorem gains_length (closes : List ℚ) : (gains closes).length = closes.length := by
  cases closes with
  | nil => rfl
  | cons c rest =>
    simp only [gains, List.length_cons, List.length_map, diffs_length]
    omega

theorem losses_length (closes : List ℚ) : (losses closes).length = closes.length := by
  cases closes with
  | nil => rfl
  | cons c rest =>
    simp only [losses, List.length_cons, List.length_map, diffs_length]
    omega

theorem ewmGo_nonneg (alpha : ℚ) (h0 : 0 ≤ alpha) (h1 : alpha ≤ 1) (xs : List ℚ) :
    ∀ (y : ℚ), 0 ≤ y → (∀ x ∈ xs, 0 ≤ x) → ∀ z ∈ ewmGo alpha y xs, 0 ≤ z := by
  induction xs with
  | nil =>
    intro y hy _ z hz
    rw [ewmGo, List.mem_singleton] at hz
    exact hz ▸ hy
  | cons x rest ih =>
    intro y hy hxs z hz
    rw [ewmGo, List.mem_cons] at hz
    rcases hz with rfl | hz2
    · exact hy
    · refine ih ((1 - alpha) * y + alpha * x) ?_ (fun w hw => hxs w (List.mem_cons_of_mem _ hw)) z hz2
      have hx : 0 ≤ x := hxs x (List.mem_cons_self _ _)
      have : 0 ≤ (1 - alpha) * y := mul_nonneg (by linarith) hy
      have : 0 ≤ alpha * x := mul_nonneg h0 hx
      linarith

theorem ewmSpan_nonneg (span : ℕ) (hspan : 1 ≤ span) (xs : List ℚ)
    (hxs : ∀ x ∈ xs, 0 ≤ x) : ∀ z ∈ ewmSpan span xs, 0 ≤ z := by
  have h0 : (0 : ℚ) ≤ 2 / ((span : ℚ) + 1) := by positivity
  have h1 : 2 / ((span : ℚ) + 1) ≤ 1 := by
    rw [div_le_one (by positivity)]
    have : (1 : ℚ) ≤ (span : ℚ) := by exact_mod_cast hspan
    linarith
  cases xs with
  | nil => intro z hz; cases hz
  | cons x rest =>
    intro z hz
    exact ewmGo_nonneg _ h0 h1 rest x (hxs x (List.mem_cons_self _ _))
      (fun w hw => hxs w (List.mem_cons_of_mem _ hw)) z hz

theorem gains_nonneg (closes : List ℚ) : ∀ x ∈ gains closes, 0 ≤ x := by
  cases closes with
  | nil => intro x hx; cases hx
  | cons c rest =>
    intro x hx
    rw [gains, List.mem_cons] at hx
    rcases hx with rfl | hx2
    · exact le_rfl
    · obtain ⟨d, -, rfl⟩ := List.mem_map.mp hx2
      split_ifs with hd
      · exact le_of_lt hd
      · exact le_rfl

theorem losses_nonneg (closes : List ℚ) : ∀ x ∈ losses closes, 0 ≤ x := by
  cases closes with
  | nil => intro x hx; cases hx
  | cons c rest =>
    intro x hx
    rw [losses, List.mem_cons] at hx
    rcases hx with rfl | hx2
    · exact le_rfl
    · obtain ⟨d, -, rfl⟩ := List.mem_map.mp hx2
      split_ifs with hd
      · linarith
      · exact le_rfl

theorem getLastD_nonneg (xs : List ℚ) :
    ∀ (d : ℚ), 0 ≤ d → (∀ z ∈ xs, 0 ≤ z) → 0 ≤ xs.getLastD d := by
  induction xs with
  | nil => intro d hd _; exact hd
  | cons a l ih =>
    intro d _ h
    rw [List.getLastD_cons]
    exact ih a (h a (List.mem_cons_self _ _)) (fun z hz => h z (List.mem_cons_of_mem _ hz))

theorem avgGain_nonneg (period : ℕ) (hp : 1 ≤ period) (closes : List ℚ) :
    0 ≤ avgGain period closes :=
  getLastD_nonneg _ 0 le_rfl (ewmSpan_nonneg period hp _ (gains_nonneg closes))

theorem avgLoss_nonneg (period : ℕ) (hp : 1 ≤ period) (closes : List ℚ) :
    0 ≤ avgLoss period closes :=
  getLastD_nonneg _ 0 le_rfl (ewmSpan_nonneg period hp _ (losses_nonneg closes))

theorem getLastD_cons_irrel {α : Type} (c : α) (l : List α) (d1 d2 : α) :
    (c :: l).getLastD d1 = (c :: l).getLastD d2 := by
  rw [List.getLastD_cons, List.getLastD_cons]

theorem getLastD_zipWith (f : ℚ → ℚ → Option ℚ) :
    ∀ (as bs : List ℚ), as.length = bs.length → as ≠ [] →
      (List.zipWith f as bs).getLastD none = f (as.getLastD 0) (bs.getLastD 0)
  | [], _, _, hne => absurd rfl hne
  | _ :: _, [], h, _ => by simp at h
  | [a], b :: bs, h, _ => by
    cases bs with
    | nil => rfl
    | cons b2 t => simp at h
  | a :: a2 :: as2, b :: bs, h, _ => by
    cases bs with
    | nil => simp at h
    | cons b2 t =>
      have ih := getLastD_zipWith f (a2 :: as2) (b2 :: t) (by simpa using h) (by simp)
      have hz : List.zipWith f (a :: a2 :: as2) (b :: b2 :: t) =
          f a b :: List.zipWith f (a2 :: as2) (b2 :: t) := rfl
      have hz2 : List.zipWith f (a2 :: as2) (b2 :: t) =
          f a2 b2 :: List.zipWith f as2 t := rfl
      rw [hz2] at ih
      rw [hz, List.getLastD_cons, hz2,
        getLastD_cons_irrel (f a2 b2) (List.zipWith f as2 t) (f a b) none, ih]
      simp only [List.getLastD_cons]

theorem rsiSeries_last (period : ℕ) (closes : List ℚ) (hne : closes ≠ []) :
    (rsiSeries period closes).getLastD none =
      rsiOfAvgs (avgGain period closes) (avgLoss period closes) := by
  unfold rsiSeries avgGain avgLoss avgGainSeries avgLossSeries
  apply getLastD_zipWith
  · rw [ewmSpan, ewmSpan, ewmAdjustFalse_length, ewmAdjustFalse_length,
      gains_length, losses_length]
  · have hlen : (ewmSpan period (gains closes)).length = closes.length := by
      rw [ewmSpan, ewmAdjustFalse_length, gains_length]
    intro hcon
    rw [hcon] at hlen
    exact hne (List.eq_nil_of_length_eq_zero hlen.symm)

/-- The RSI value is present (not `NaN`) and lies in `[0, 100]`. -/
def rsiInRange (o : Option ℚ) : Prop :=
  match o with
  | none => False
  | some r => 0 ≤ r ∧ r ≤ 100

/-- C9: for a non-empty close series (with a valid smoothing period) whose
computed average gain and average loss are not both zero, the last RSI value
of `RSIIndicator.calculate` is a genuine number in `[0, 100]`. -/
theorem rsi_within_bounds (period : ℕ) (closes : List ℚ) (hp : 1 ≤ period)
    (hne : closes ≠ [])
    (hnd : ¬(avgGain period closes = 0 ∧ avgLoss period closes = 0)) :
    rsiInRange ((rsiSeries period closes).getLastD none) := by
  rw [rsiSeries_last period closes hne]
  have hg : 0 ≤ avgGain period closes := avgGain_nonneg period hp closes
  have hl : 0 ≤ avgLoss period closes := avgLoss_nonneg period hp closes
  unfold rsiOfAvgs
  by_cases hl0 : avgLoss period closes = 0
  · rw [if_pos hl0, if_neg (fun hg0 => hnd ⟨hg0, hl0⟩)]
    exact ⟨by norm_num, le_rfl⟩
  · rw [if_neg hl0]
    have hrs : 0 ≤ avgGain period closes / avgLoss period closes := div_nonneg hg hl
    have h1 : (1 : ℚ) ≤ 1 + avgGain period closes / avgLoss period closes := by linarith
    have hdivle : 100 / (1 + avgGain period closes / avgLoss period closes) ≤ 100 :=
      div_le_self (by norm_num) h1
    have hdivpos : 0 < 100 / (1 + avgGain period closes / avgLoss period closes) :=
      div_pos (by norm_num) (by linarith)
    exact ⟨by linarith, by linarith⟩

/-- Witness for C9 on the two-bar series `[1, 2]` with the default period. -/
theorem rsi_within_bounds_witness :
    rsiInRange ((rsiSeries 14 [1, 2]).getLastD none) :=
  rsi_within_bounds 14 [1, 2] (by norm_num) (List.cons_ne_nil _ _)
    (by norm_num [avgGain, avgLoss, avgGainSeries, avgLossSeries, gains, losses, diffs,
      ewmSpan, ewmAdjustFalse, ewmGo])

/-! ## Risk checker theorems -/

/-- C5 counterexample: with the default limits, a zero-size trade while five
trades are open gives the code risk score `round((1 + 0 + 0)/3, 3) = 0.333`
(the position-size ratio is skipped because its rounded percentage is not
positive), whereas the mean over the ratios of all four checks is `0.25`. -/
theorem validate_trade_risk_score_counterexample :
    (validateTrade defaultRiskCheckerCfg 0 0 10000 5 0 0).riskScore = 333/1000 ∧
    specRiskScore defaultRiskCheckerCfg 0 10000 5 0 0 = 1/4 ∧
    ¬ ((333 : ℚ)/1000 = 1/4) := by
  have hrf : riskFactors (checkPositionSize defaultRiskCheckerCfg 0 0 10000)
      (checkOpenTrades defaultRiskCheckerCfg 5)
      (checkDailyLoss defaultRiskCheckerCfg 0 10000)
      (checkTotalExposure defaultRiskCheckerCfg 0 0 10000) = [1, 0, 0] := by
    norm_num [riskFactors, checkPositionSize, checkOpenTrades, checkDailyLoss,
      checkTotalExposure, dailyLossFraction, defaultRiskCheckerCfg, pyRound, roundHalfEven]
  refine ⟨?_, ?_, by norm_num⟩
  · show (validateTrade defaultRiskCheckerCfg 0 0 10000 5 0 0).riskScore = 333/1000
    unfold validateTrade
    rw [hrf, if_neg (List.cons_ne_nil _ _)]
    norm_num [pyRound, roundHalfEven]
  · norm_num [specRiskScore, dailyLossFraction, defaultRiskCheckerCfg]

/-- C5 amended: `validate_trade` approves exactly when all four checks
approve and concatenates their warnings, as claimed; but the risk score is
the rounded mean of the utilization ratios of the *rounded* percentage
fields, and the position-size ratio enters the mean only when the rounded
position-value percentage is positive — a mean of three ratios otherwise,
not always four. -/
theorem validate_trade_correct (cfg : RiskCheckerCfg) (ps pv ab : ℚ) (cot : ℕ)
    (dp ce : ℚ) :
    (validateTrade cfg ps pv ab cot dp ce).approved =
      ((checkPositionSize cfg ps pv ab).approved && (checkOpenTrades cfg cot).approved &&
       (checkDailyLoss cfg dp ab).approved && (checkTotalExposure cfg ce pv ab).approved) ∧
    (validateTrade cfg ps pv ab cot dp ce).warnings =
      (checkPositionSize cfg ps pv ab).warnings ++ (checkOpenTrades cfg cot).warnings ++
      (checkDailyLoss cfg dp ab).warnings ++ (checkTotalExposure cfg ce pv ab).warnings ∧
    (validateTrade cfg ps pv ab cot dp ce).riskScore =
      pyRound 3 (if 0 < pyRound 2 (pv / ab * 100) then
        (pyRound 2 (pv / ab * 100) / pyRound 2 (cfg.maxPositionValuePct * 100) +
         (cot : ℚ) / (cfg.maxOpenTrades : ℚ) +
         pyRound 2 (dailyLossFraction dp ab * 100) / pyRound 2 (cfg.dailyLossLimitPct * 100) +
         pyRound 2 ((ce + pv) / ab * 100) / pyRound 2 (cfg.maxExposurePct * 100)) / 4
      else
        ((cot : ℚ) / (cfg.maxOpenTrades : ℚ) +
         pyRound 2 (dailyLossFraction dp ab * 100) / pyRound 2 (cfg.dailyLossLimitPct * 100) +
         pyRound 2 ((ce + pv) / ab * 100) / pyRound 2 (cfg.maxExposurePct * 100)) / 3) := by
  have hrf : riskFactors (checkPositionSize cfg ps pv ab) (checkOpenTrades cfg cot)
      (checkDailyLoss cfg dp ab) (checkTotalExposure cfg ce pv ab) =
      if 0 < pyRound 2 (pv / ab * 100) then
        [pyRound 2 (pv / ab * 100) / pyRound 2 (cfg.maxPositionValuePct * 100),
         (cot : ℚ) / (cfg.maxOpenTrades : ℚ),
         pyRound 2 (dailyLossFraction dp ab * 100) / pyRound 2 (cfg.dailyLossLimitPct * 100),
         pyRound 2 ((ce + pv) / ab * 100) / pyRound 2 (cfg.maxExposurePct * 100)]
      else
        [(cot : ℚ) / (cfg.maxOpenTrades : ℚ),
         pyRound 2 (dailyLossFraction dp ab * 100) / pyRound 2 (cfg.dailyLossLimitPct * 100),
         pyRound 2 ((ce + pv) / ab * 100) / pyRound 2 (cfg.maxExposurePct * 100)] := by
    unfold riskFactors checkPositionSize checkOpenTrades checkDailyLoss checkTotalExposure
    split_ifs <;> rfl
  refine ⟨rfl, rfl, ?_⟩
  show pyRound 3 _ = _
  rw [hrf]
  by_cases hcond : 0 < pyRound 2 (pv / ab * 100)
  · rw [if_pos hcond, if_pos hcond, if_neg (List.cons_ne_nil _ _)]
    congr 1
    simp only [List.sum_cons, List.sum_nil, List.length_cons, List.length_nil]
    push_cast
    ring
  · rw [if_neg hcond, if_neg hcond, if_neg (List.cons_ne_nil _ _)]
    congr 1
    simp only [List.sum_cons, List.sum_nil, List.length_cons, List.length_nil]
    push_cast
    ring

/-! ## Kelly theorems -/

/-- C6: on valid inputs `0 < p < 1`, `b > 0`, `calculate_kelly` computes
`f* = (p·b − (1−p))/b` and recommends no_trade with safe fraction 0 when
`f* ≤ 0`, max_kelly with the cap when `f*` exceeds `max_kelly_fraction`, and
fractional_kelly with `f*`·multiplier otherwise (output fields carry the
dict rounding). -/
theorem kelly_criterion_correct (dwr dwlr maxK fracK p b : ℚ)
    (hp : 0 < p ∧ p < 1) (hb : 0 < b) :
    calculateKelly dwr dwlr maxK fracK (some p) (some b) = Except.ok
      { fullKelly := pyRound 4 ((p * b - (1 - p)) / b)
        safeKelly := pyRound 4
          (if (p * b - (1 - p)) / b ≤ 0 then 0
           else if maxK < (p * b - (1 - p)) / b then maxK
           else (p * b - (1 - p)) / b * fracK)
        winRate := pyRound 3 p
        lossRate := pyRound 3 (1 - p)
        winLossR := pyRound 2 b
        recommendation :=
          if (p * b - (1 - p)) / b ≤ 0 then "no_trade"
          else if maxK < (p * b - (1 - p)) / b then "max_kelly"
          else "fractional_kelly"
        fractionalKellyMultiplier := fracK
        maxKellyFraction := maxK } := by
  unfold calculateKelly
  simp only [Option.getD_some]
  rw [if_neg (not_not_intro hp), if_neg (not_le.mpr hb)]

/-- Witness for C6 at the concrete instance of the claim: `p = 0.6`, `b = 2.0`
with the default cap 0.25 gives `f* = 0.4`, recommendation max_kelly and
safe fraction 0.25. -/
theorem kelly_criterion_correct_witness :
    calculateKelly (1/2) 2 (1/4) (1/2) (some (6/10)) (some 2) = Except.ok
      { fullKelly := 2/5, safeKelly := 1/4, winRate := 3/5, lossRate := 2/5, winLossR := 2,
        recommendation := "max_kelly", fractionalKellyMultiplier := 1/2,
        maxKellyFraction := 1/4 } := by
  have h := kelly_criterion_correct (1/2) 2 (1/4) (1/2) (6/10) 2
    ⟨by norm_num, by norm_num⟩ (by norm_num)
  rw [h]
  norm_num [pyRound, roundHalfEven]

/-! ## Order executor theorems -/

theorem executeAttempts_all_fail (createOrder : ℕ → Except String OrderResponse)
    (errF : ℕ → String) (maxR : ℕ) :
    ∀ (k a : ℕ), maxR - a = k → a < maxR →
      (∀ i, i < maxR → createOrder i = Except.error (errF i)) →
      executeAttempts createOrder maxR a = some
        { success := false, status := "failed",
          reason := some ("Order execution failed after " ++ toString maxR ++
            " attempts: " ++ errF (maxR - 1)),
          orderId := none, attempt := none, attempts := some maxR,
          error := some (errF (maxR - 1)) } := by
  intro k
  induction k with
  | zero => intro a hk ha _; omega
  | succ n ih =>
    intro a hk ha hcr
    rw [executeAttempts, dif_pos ha, hcr a ha]
    dsimp only
    by_cases hlast : a = maxR - 1
    · subst hlast
      rw [if_pos rfl]
    · rw [if_neg hlast]
      exact ih (a + 1) (by omega) (by omega) hcr

theorem executeAttempts_first_success (createOrder : ℕ → Except String OrderResponse)
    (errF : ℕ → String) (maxR : ℕ) :
    ∀ (k a j : ℕ), j - a = k → a ≤ j → j < maxR →
      (∀ i, a ≤ i → i < j → createOrder i = Except.error (errF i)) →
      ∀ r, createOrder j = Except.ok r →
        executeAttempts createOrder maxR a = some
          { success := true, status := "executed", reason := none, orderId := r.orderId,
            attempt := some (j + 1), attempts := none, error := none } := by
  intro k
  induction k with
  | zero =>
    intro a j hk haj hj hf r hok
    have haj2 : a = j := by omega
    subst haj2
    rw [executeAttempts, dif_pos hj, hok]
  | succ n ih =>
    intro a j hk haj hj hf r hok
    have haj2 : a < j := by omega
    rw [executeAttempts, dif_pos (by omega : a < maxR), hf a le_rfl haj2]
    dsimp only
    rw [if_neg (by omega : ¬a = maxR - 1)]
    exact ih (a + 1) j (by omega) (by omega) hj (fun i h1 h2 => hf i (by omega) h2) r hok

theorem executeAttempts_isSome (createOrder : ℕ → Except String OrderResponse) (maxR : ℕ) :
    ∀ (k a : ℕ), maxR - a = k → a < maxR →
      (executeAttempts createOrder maxR a).isSome = true := by
  intro k
  induction k with
  | zero => intro a hk ha; omega
  | succ n ih =>
    intro a hk ha
    rw [executeAttempts, dif_pos ha]
    cases hcr : createOrder a with
    | ok r => rfl
    | error e =>
      dsimp only
      by_cases hlast : a = maxR - 1
      · rw [if_pos hlast]; rfl
      · rw [if_neg hlast]
        exact ih (a + 1) (by omega) (by omega)

/-- C7: with dry-run enabled, a gateway dry-run verdict of `valid = false`
short-circuits `execute_order` to a rejected result whatever the order path
would do (the result is the same for every `create_order` behaviour, i.e. no
submission happens); otherwise the order is attempted at most `max_retries`
times, failures before the last are swallowed and retried, an all-fail run
returns a failed result carrying the last error, and in every case a result
is returned rather than an exception propagated. -/
theorem execute_order_error_handling (enableDryRun : Bool) (maxRetries : ℕ)
    (dryRun : Except String DryRunResult)
    (createOrder : ℕ → Except String OrderResponse) (errF : ℕ → String)
    (hmr : 1 ≤ maxRetries) :
    (enableDryRun = true → (dryRunValidation dryRun).valid = false →
      ∀ create2 : ℕ → Except String OrderResponse,
        executeOrder enableDryRun maxRetries dryRun create2 =
          some { success := false, status := "rejected",
                 reason := some "Dry-run validation failed",
                 orderId := none, attempt := none, attempts := none, error := none }) ∧
    ((enableDryRun = false ∨ (dryRunValidation dryRun).valid = true) →
      (∀ i, i < maxRetries → createOrder i = Except.error (errF i)) →
      executeOrder enableDryRun maxRetries dryRun createOrder =
        some { success := false, status := "failed",
               reason := some ("Order execution failed after " ++ toString maxRetries ++
                 " attempts: " ++ errF (maxRetries - 1)),
               orderId := none, attempt := none, attempts := some maxRetries,
               error := some (errF (maxRetries - 1)) }) ∧
    ((enableDryRun = false ∨ (dryRunValidation dryRun).valid = true) →
      (executeOrder enableDryRun maxRetries dryRun createOrder).isSome = true) ∧
    ((enableDryRun = false ∨ (dryRunValidation dryRun).valid = true) →
      ∀ j, j < maxRetries → (∀ i, i < j → createOrder i = Except.error (errF i)) →
      ∀ r, createOrder j = Except.ok r →
        executeOrder enableDryRun maxRetries dryRun createOrder = some
          { success := true, status := "executed", reason := none, orderId := r.orderId,
            attempt := some (j + 1), attempts := none, error := none } ∧
        j + 1 ≤ maxRetries) := by
  refine ⟨?_, ?_, ?_, ?_⟩
  · intro hdr hval create2
    unfold executeOrder
    rw [if_pos hdr, if_pos hval]
  · intro hdry hcr
    unfold executeOrder
    rcases hdry with hd | hv
    · rw [if_neg (by rw [hd]; exact Bool.false_ne_true)]
      exact executeAttempts_all_fail createOrder errF maxRetries maxRetries 0 rfl
        (by omega) hcr
    · by_cases hdr2 : enableDryRun = true
      · rw [if_pos hdr2, if_neg (by simp [hv])]
        exact executeAttempts_all_fail createOrder errF maxRetries maxRetries 0 rfl
          (by omega) hcr
      · rw [if_neg hdr2]
        exact executeAttempts_all_fail createOrder errF maxRetries maxRetries 0 rfl
          (by omega) hcr
  · intro hdry
    unfold executeOrder
    rcases hdry with hd | hv
    · rw [if_neg (by rw [hd]; exact Bool.false_ne_true)]
      exact executeAttempts_isSome createOrder maxRetries maxRetries 0 rfl (by omega)
    · by_cases hdr2 : enableDryRun = true
      · rw [if_pos hdr2, if_neg (by simp [hv])]
        exact executeAttempts_isSome createOrder maxRetries maxRetries 0 rfl (by omega)
      · rw [if_neg hdr2]
        exact executeAttempts_isSome createOrder maxRetries maxRetries 0 rfl (by omega)
  · intro hdry j hj hferr r hok
    refine ⟨?_, by omega⟩
    unfold executeOrder
    have hrun := executeAttempts_first_success createOrder errF maxRetries j 0 j rfl
      (Nat.zero_le j) hj (fun i _ h2 => hferr i h2) r hok
    rcases hdry with hd | hv
    · rw [if_neg (by rw [hd]; exact Bool.false_ne_true)]
      exact hrun
    · by_cases hdr2 : enableDryRun = true
      · rw [if_pos hdr2, if_neg (by simp [hv])]
        exact hrun
      · rw [if_neg hdr2]
        exact hrun

/-- Witness for C7: three attempts against an always-raising gateway yield
the failed result with the error of the third attempt. -/
theorem execute_order_error_handling_witness :
    executeOrder true 3 (Except.ok { valid := true, errors := [], warnings := [] })
      demoFailingCreateOrder =
      some { success := false, status := "failed",
             reason := some "Order execution failed after 3 attempts: gateway down 2",
             orderId := none, attempt := none, attempts := some 3,
             error := some "gateway down 2" } := by
  have h := (execute_order_error_handling true 3
    (Except.ok { valid := true, errors := [], warnings := [] })
    demoFailingCreateOrder (fun i => "gateway down " ++ toString i) (by norm_num)).2.1
    (Or.inr rfl) (fun i _ => rfl)
  rw [h]
  rfl

/-! ## Stop-loss / take-profit calculator theorems -/

theorem pyLower_sell : pyLower "sell" = "sell" := by decide

theorem atrBasedStop_buy_eq (dam e atr m : ℚ) :
    atrBasedStop dam e atr "buy" (some m) =
      { method := "atr", stopPrice := pyRound 2 (e - atr * m),
        stopDistance := pyRound 2 (atr * m), stopPct := pyRound 2 (atr * m / e * 100),
        atr := pyRound 2 atr, atrMultiplier := m } := rfl

theorem atrBasedStop_sell_eq (dam e atr m : ℚ) :
    atrBasedStop dam e atr "sell" (some m) =
      { method := "atr", stopPrice := pyRound 2 (e + atr * m),
        stopDistance := pyRound 2 (atr * m), stopPct := pyRound 2 (atr * m / e * 100),
        atr := pyRound 2 atr, atrMultiplier := m } := rfl

theorem calculateTakeProfit_one_buy (drr mrr e s rr : ℚ) :
    calculateTakeProfit drr mrr e s "buy" (some rr) 1 =
      { riskRewardR := max rr mrr, risk := pyRound 2 |e - s|,
        totalReward := pyRound 2 (|e - s| * max rr mrr), numTargets := 1,
        targets := [{ level := 1, price := pyRound 2 (e + |e - s| * max rr mrr),
                      distance := pyRound 2 (|e - s| * max rr mrr),
                      distancePct := pyRound 2 (|e - s| * max rr mrr / e * 100),
                      allocation := 100 }] } := rfl

theorem calculateTakeProfit_one_sell (drr mrr e s rr : ℚ) :
    calculateTakeProfit drr mrr e s "sell" (some rr) 1 =
      { riskRewardR := max rr mrr, risk := pyRound 2 |e - s|,
        totalReward := pyRound 2 (|e - s| * max rr mrr), numTargets := 1,
        targets := [{ level := 1, price := pyRound 2 (e - |e - s| * max rr mrr),
                      distance := pyRound 2 (|e - s| * max rr mrr),
                      distancePct := pyRound 2 (|e - s| * max rr mrr / e * 100),
                      allocation := 100 }] } := rfl

/-- C8: the ATR stop for `entry 42000, atr 400, multiplier 2, buy` is 41200;
feeding that stop to the take-profit calculation with ratio 2 and a single
target yields the target price 43600; and in general `risk = |entry − stop|`,
the ratio used is `max(ratio, min_risk_reward)`, the reward is their product,
and the single target sits at `entry ± reward` by direction. -/
theorem atr_stop_take_profit_correct (dam drr mrr e s atr m rr : ℚ) :
    (atrBasedStop 2 42000 400 "buy" (some 2)).stopPrice = 41200 ∧
    (calculateTakeProfit 2 (3/2) 42000 41200 "buy" (some 2) 1).targets =
      [{ level := 1, price := 43600, distance := 1600, distancePct := 381/100,
         allocation := 100 }] ∧
    (calculateTakeProfit 2 (3/2) 42000 41200 "buy" (some 2) 1).risk = 800 ∧
    (calculateTakeProfit 2 (3/2) 42000 41200 "buy" (some 2) 1).totalReward = 1600 ∧
    (atrBasedStop dam e atr "buy" (some m)).stopPrice = pyRound 2 (e - atr * m) ∧
    (atrBasedStop dam e atr "sell" (some m)).stopPrice = pyRound 2 (e + atr * m) ∧
    (calculateTakeProfit drr mrr e s "buy" (some rr) 1).riskRewardR = max rr mrr ∧
    (calculateTakeProfit drr mrr e s "buy" (some rr) 1).risk = pyRound 2 |e - s| ∧
    (calculateTakeProfit drr mrr e s "buy" (some rr) 1).totalReward =
      pyRound 2 (|e - s| * max rr mrr) ∧
    (calculateTakeProfit drr mrr e s "buy" (some rr) 1).targets =
      [{ level := 1, price := pyRound 2 (e + |e - s| * max rr mrr),
         distance := pyRound 2 (|e - s| * max rr mrr),
         distancePct := pyRound 2 (|e - s| * max rr mrr / e * 100), allocation := 100 }] ∧
    (calculateTakeProfit drr mrr e s "sell" (some rr) 1).targets =
      [{ level := 1, price := pyRound 2 (e - |e - s| * max rr mrr),
         distance := pyRound 2 (|e - s| * max rr mrr),
         distancePct := pyRound 2 (|e - s| * max rr mrr / e * 100), allocation := 100 }] := by
  refine ⟨?_, ?_, ?_, ?_, ?_, ?_, ?_, ?_, ?_, ?_, ?_⟩
  · rw [atrBasedStop_buy_eq]
    norm_num [pyRound, roundHalfEven]
  · rw [calculateTakeProfit_one_buy]
    norm_num [pyRound, roundHalfEven]
  · rw [calculateTakeProfit_one_buy]
    norm_num [pyRound, roundHalfEven]
  · rw [calculateTakeProfit_one_buy]
    norm_num [pyRound, roundHalfEven]
  · rw [atrBasedStop_buy_eq]
  · rw [atrBasedStop_sell_eq]
  · rw [calculateTakeProfit_one_buy]
  · rw [calculateTakeProfit_one_buy]
  · rw [calculateTakeProfit_one_buy]
  · rw [calculateTakeProfit_one_buy]
  · rw [calculateTakeProfit_one_sell]

end MultiAgent
